import Mathlib

/-!
Verification of the ajou-notice-discord-bot worker (src/index.ts, src/schema.ts).

The worker exposes a `fetch` router over `/api/webhook` (GET/POST/DELETE with a
`webhook` query parameter, plus OPTIONS) and `/api/webhook/refresh` (POST), and a
`scheduled` sweep that syncs every stored subscription.  The D1 table
`discord_bot` (schema.ts) has rows `{webhook (primary key), latestId, queryParams}`.

The embedding below models:
  * the subscription store as a list of records (the primary key gives the
    uniqueness hypothesis used where it matters);
  * the upstream notice feed `env.NOTICE_WORKER` as an oracle
    `feeds : String → Option (List Notice)` keyed by the query string
    (`none` models a failed fetch or a malformed JSON body, both of which throw);
  * outbound webhook delivery as events; a per-notice dispatch whose id is in
    `failIds` models `fetch(webhook, …)` rejecting, which aborts the handler;
  * observable side effects (store reads/writes, upstream fetches, dispatches)
    as an event trace, in the order the awaited calls occur in the source.
-/

/-- One notice from the upstream feed (interface `Notice` in index.ts;
only the fields the delivery logic reads are kept). -/
structure Notice where
  id : Nat
  title : String
  url : String
deriving DecidableEq, Repr

/-- One row of the `discord_bot` table (schema.ts): `webhook` is the primary
key, `latestId` is the delivery watermark, `queryParams` the serialized filter. -/
structure Subscription where
  webhook : String
  latestId : Nat
  queryParams : String
deriving DecidableEq, Repr

/-- The persistent store: the rows of the `discord_bot` table. -/
abbrev Store := List Subscription

/-- Observable side effects of a handler invocation, in execution order. -/
inductive Event where
  | storeRead (webhook : String)
  | storeInsert (sub : Subscription)
  | storeUpdate (webhook : String) (latestId : Nat)
  | storeDelete (webhook : String)
  | upstreamFetch (query : String)
  | dispatch (webhook : String) (content : String) (avatarUrl : String)
deriving DecidableEq, Repr

/-- The fixed `avatar_url` appended to every outbound form (index.ts lines 180, 219). -/
def avatarUrl : String :=
  "https://www.ajou.ac.kr/_res/ajou/kr/img/intro/img-symbol.png"

/-- The `content` field of the outbound form: `` `${notice.title}\n${notice.url}` ``. -/
def messageContent (n : Notice) : String :=
  n.title ++ "\n" ++ n.url

/-- `notices[0]?.id ?? 0` (index.ts lines 86, 169, 208). -/
def latestIdOf : List Notice → Nat
  | [] => 0
  | n :: _ => n.id

/-- `notices.filter((notice) => notice.id > watermark).reverse()`
(index.ts lines 175, 214). -/
def newNotices (watermark : Nat) (notices : List Notice) : List Notice :=
  (notices.filter (fun n => watermark < n.id)).reverse

/-- The delivery loop (index.ts lines 177-186 / 216-225): for each notice in
order, POST a form to the webhook and await it.  A notice whose id is in
`failIds` models the `fetch` rejecting: the exception propagates, so no event is
recorded for it, the loop stops, and the second component is `false`. -/
def dispatchLoop (webhook : String) (failIds : List Nat) :
    List Notice → List Event × Bool
  | [] => ([], true)
  | n :: rest =>
    if n.id ∈ failIds then
      ([], false)
    else
      let r := dispatchLoop webhook failIds rest
      (Event.dispatch webhook (messageContent n) avatarUrl :: r.1, r.2)

/-- The sync body of the on-demand refresh handler (index.ts lines 168-190),
transcribed from that site: given the stored record `info` and the fetched
notice list, compute `latestId`, conditionally write the watermark, then
dispatch the reversed filtered delta.  Returns the event trace, the watermark
write (if any), and whether every dispatch completed. -/
def refreshSyncBody (info : Subscription) (notices : List Notice)
    (failIds : List Nat) : List Event × Option Nat × Bool :=
  let latestId := latestIdOf notices
  let wmWrite : Option Nat :=
    if info.latestId < latestId then some latestId else none
  let wmEvents : List Event :=
    match wmWrite with
    | some w => [Event.storeUpdate info.webhook w]
    | none => []
  let r := dispatchLoop info.webhook failIds (newNotices info.latestId notices)
  (wmEvents ++ r.1, wmWrite, r.2)

/-- The per-subscription body of the scheduled sweep (index.ts lines 207-225),
transcribed from that site: compute `latestId` from the fetched notices,
conditionally write the watermark, then dispatch the reversed filtered delta. -/
def scheduledSyncBody (bot : Subscription) (notices : List Notice)
    (failIds : List Nat) : List Event × Option Nat × Bool :=
  let latestId := latestIdOf notices
  let wmWrite : Option Nat :=
    if bot.latestId < latestId then some latestId else none
  let wmEvents : List Event :=
    match wmWrite with
    | some w => [Event.storeUpdate bot.webhook w]
    | none => []
  let r := dispatchLoop bot.webhook failIds (newNotices bot.latestId notices)
  (wmEvents ++ r.1, wmWrite, r.2)

/-- `db.update(discordBot).set({ latestId }).where(eq(discordBot.webhook, webhook))`:
every row whose `webhook` matches gets the new `latestId` (the primary key makes
it at most one row in any reachable store). -/
def updateWatermark (store : Store) (webhook : String) (latestId : Nat) : Store :=
  store.map (fun s => if s.webhook = webhook then { s with latestId := latestId } else s)

/-- Apply an optional watermark write to the store. -/
def applyWrite (store : Store) (webhook : String) : Option Nat → Store
  | some w => updateWatermark store webhook w
  | none => store

/-- The `{category?, department?, search?}` request body (interface `Payload`). -/
structure Payload where
  category : Option String
  department : Option String
  search : Option String
deriving DecidableEq, Repr

/-- `if (field) queryParams.append(key, field)` — JS truthiness skips both a
missing field and an empty string (index.ts lines 75-77). -/
def appendIf (key : String) : Option String → List (String × String)
  | some v => if v = "" then [] else [(key, v)]
  | none => []

/-- The query-parameter pairs built from the request body (index.ts lines 73-77). -/
def buildQueryParams (p : Payload) : List (String × String) :=
  appendIf "category" p.category ++ appendIf "department" p.department ++
    appendIf "search" p.search

/-- `queryParams.toString()`: the serialized query string.  Percent-encoding is
not modelled; the string is treated as opaque by everything downstream. -/
def toQueryString (pairs : List (String × String)) : String :=
  String.intercalate "&" (pairs.map (fun kv => kv.1 ++ "=" ++ kv.2))

/-- HTTP methods appearing in the router. -/
inductive Method where
  | OPTIONS
  | GET
  | POST
  | DELETE
  | PUT
deriving DecidableEq, Repr

/-- Result of one `fetch` invocation: the HTTP status, the store as left behind,
and the trace of observable side effects in order. -/
structure RouteResult where
  status : Nat
  store : Store
  events : List Event
deriving DecidableEq, Repr

/-- `db.select().from(discordBot).where(eq(discordBot.webhook, webhook)).get()`. -/
def findSub (store : Store) (webhook : String) : Option Subscription :=
  store.find? (fun s => s.webhook = webhook)

/-- The `fetch` handler (index.ts lines 30-196): routes on pathname and method.
An unhandled exception (failed upstream fetch, malformed feed JSON, rejected
dispatch) surfaces as status 500; the events recorded before it remain. -/
def handleFetch (feeds : String → Option (List Notice)) (failIds : List Nat)
    (store : Store) (method : Method) (pathname : String)
    (webhook : Option String) (payload : Payload) : RouteResult :=
  if pathname = "/api/webhook" then
    match method with
    | Method.OPTIONS => ⟨200, store, []⟩
    | Method.GET =>
      match webhook with
      | none => ⟨400, store, []⟩
      | some w =>
        match findSub store w with
        | none => ⟨404, store, [Event.storeRead w]⟩
        | some _ => ⟨200, store, [Event.storeRead w]⟩
    | Method.POST =>
      match webhook with
      | none => ⟨400, store, []⟩
      | some w =>
        let q := toQueryString (buildQueryParams payload)
        match feeds q with
        | none => ⟨500, store, [Event.upstreamFetch q]⟩
        | some notices =>
          let newRecord : Subscription :=
            { webhook := w, latestId := latestIdOf notices, queryParams := q }
          match findSub store w with
          | some _ => ⟨409, store, [Event.upstreamFetch q, Event.storeRead w]⟩
          | none =>
            ⟨201, store ++ [newRecord],
              [Event.upstreamFetch q, Event.storeRead w, Event.storeInsert newRecord]⟩
    | Method.DELETE =>
      match webhook with
      | none => ⟨400, store, []⟩
      | some w =>
        if store.any (fun s => s.webhook = w) then
          ⟨200, store.filter (fun s => ¬s.webhook = w), [Event.storeDelete w]⟩
        else
          ⟨404, store, [Event.storeDelete w]⟩
    | _ => ⟨405, store, []⟩
  else if pathname = "/api/webhook/refresh" then
    if method ≠ Method.POST then
      ⟨405, store, []⟩
    else
      match webhook with
      | none => ⟨400, store, []⟩
      | some w =>
        match findSub store w with
        | none => ⟨404, store, [Event.storeRead w]⟩
        | some info =>
          match feeds info.queryParams with
          | none => ⟨500, store, [Event.storeRead w, Event.upstreamFetch info.queryParams]⟩
          | some notices =>
            let r := refreshSyncBody info notices failIds
            ⟨if r.2.2 then 200 else 500,
              applyWrite store w r.2.1,
              Event.storeRead w :: Event.upstreamFetch info.queryParams :: r.1⟩
  else
    ⟨404, store, []⟩

/-- The loop body of `scheduled` (index.ts lines 203-226) over the snapshot
`bots`: each iteration fetches the bot's feed, runs the sync body, and applies
the watermark write.  There is no try/catch, so a failed upstream fetch,
malformed feed, or rejected dispatch aborts the remaining iterations. -/
def sweepLoop (feeds : String → Option (List Notice)) (failIds : List Nat) :
    Store → List Subscription → List Event × Store × Bool
  | store, [] => ([], store, true)
  | store, bot :: rest =>
    match feeds bot.queryParams with
    | none => ([Event.upstreamFetch bot.queryParams], store, false)
    | some notices =>
      let r := scheduledSyncBody bot notices failIds
      let store1 := applyWrite store bot.webhook r.2.1
      if r.2.2 then
        let tail := sweepLoop feeds failIds store1 rest
        (Event.upstreamFetch bot.queryParams :: r.1 ++ tail.1, tail.2)
      else
        (Event.upstreamFetch bot.queryParams :: r.1, store1, false)

/-- The `scheduled` handler (index.ts lines 198-227): read all rows, then run
the sweep loop over that snapshot. -/
def sweep (feeds : String → Option (List Notice)) (failIds : List Nat)
    (store : Store) : List Event × Store × Bool :=
  sweepLoop feeds failIds store store

/-- The feed invariant used throughout the spec: notices arrive newest-first,
ids strictly descending. -/
def sortedDesc (notices : List Notice) : Prop :=
  notices.Pairwise (fun a b => b.id < a.id)

instance : DecidablePred sortedDesc := fun l =>
  List.instDecidablePairwise l

/-- Recognizes an outbound delivery event. -/
def isDispatch : Event → Bool
  | Event.dispatch _ _ _ => true
  | _ => false

/-! ### Basic lemmas -/

theorem mem_le_latestIdOf {notices : List Notice} (h : sortedDesc notices)
    {n : Notice} (hn : n ∈ notices) : n.id ≤ latestIdOf notices := by
  cases notices with
  | nil => cases hn
  | cons a l =>
    rcases List.mem_cons.mp hn with rfl | hmem
    · exact Nat.le_refl _
    · exact Nat.le_of_lt ((List.pairwise_cons.mp h).1 n hmem)

theorem mem_newNotices {w : Nat} {notices : List Notice} {n : Notice} :
    n ∈ newNotices w notices ↔ n ∈ notices ∧ w < n.id := by
  simp [newNotices, List.mem_reverse, List.mem_filter]

theorem newNotices_eq_nil {w : Nat} {notices : List Notice}
    (h : sortedDesc notices) (hle : latestIdOf notices ≤ w) :
    newNotices w notices = [] := by
  unfold newNotices
  rw [List.reverse_eq_nil_iff]
  rw [List.filter_eq_nil_iff]
  intro n hn
  simp only [decide_eq_true_eq, Nat.not_lt]
  exact Nat.le_trans (mem_le_latestIdOf h hn) hle

theorem newNotices_sorted_asc {w : Nat} {notices : List Notice}
    (h : sortedDesc notices) :
    (newNotices w notices).Pairwise (fun a b => a.id < b.id) := by
  unfold newNotices
  rw [List.pairwise_reverse]
  exact List.Pairwise.filter _ h

theorem dispatchLoop_mem {webhook : String} {failIds : List Nat} :
    ∀ {l : List Notice} {e : Event}, e ∈ (dispatchLoop webhook failIds l).1 →
      ∃ n, n ∈ l ∧ e = Event.dispatch webhook (messageContent n) avatarUrl := by
  intro l
  induction l with
  | nil => intro e he; cases he
  | cons n rest ih =>
    intro e he
    by_cases hf : n.id ∈ failIds
    · simp [dispatchLoop, hf] at he
    · simp only [dispatchLoop, if_neg hf, List.mem_cons] at he
      rcases he with rfl | he
      · exact ⟨n, List.mem_cons_self n rest, rfl⟩
      · obtain ⟨m, hm, rfl⟩ := ih he
        exact ⟨m, List.mem_cons_of_mem n hm, rfl⟩

theorem dispatchLoop_noFail {webhook : String} :
    ∀ l : List Notice, dispatchLoop webhook [] l =
      (l.map (fun n => Event.dispatch webhook (messageContent n) avatarUrl), true) := by
  intro l
  induction l with
  | nil => rfl
  | cons n rest ih => simp [dispatchLoop, ih]

theorem dispatchLoop_isDispatch {webhook : String} {failIds : List Nat}
    {l : List Notice} {e : Event} (he : e ∈ (dispatchLoop webhook failIds l).1) :
    isDispatch e = true := by
  obtain ⟨n, _, rfl⟩ := dispatchLoop_mem he
  rfl

/-! ### Store lemmas -/

theorem findSub_updateWatermark_self {store : Store} {w : String} {sub : Subscription}
    (v : Nat) (h : findSub store w = some sub) :
    findSub (updateWatermark store w v) w = some { sub with latestId := v } := by
  induction store with
  | nil => simp [findSub] at h
  | cons a rest ih =>
    by_cases ha : a.webhook = w
    · simp only [findSub, updateWatermark, List.map_cons, if_pos ha] at h ⊢
      rw [List.find?_cons_of_pos _ (by simp [ha])] at h
      rw [List.find?_cons_of_pos _ (by simp [ha])]
      cases h
      rfl
    · simp only [findSub, updateWatermark, List.map_cons, if_neg ha] at h ⊢
      rw [List.find?_cons_of_neg _ (by simp [ha])] at h
      rw [List.find?_cons_of_neg _ (by simp [ha])]
      exact ih h

theorem findSub_updateWatermark_ne {store : Store} {w w' : String}
    (hne : w' ≠ w) (v : Nat) :
    findSub (updateWatermark store w v) w' = findSub store w' := by
  induction store with
  | nil => rfl
  | cons a rest ih =>
    by_cases ha : a.webhook = w'
    · have haw : ¬a.webhook = w := fun h => hne (ha ▸ h)
      simp only [findSub, updateWatermark, List.map_cons, if_neg haw] at ih ⊢
      rw [List.find?_cons_of_pos _ (by simp [ha]),
        List.find?_cons_of_pos _ (by simp [ha])]
    · by_cases haw : a.webhook = w
      · simp only [findSub, updateWatermark, List.map_cons, if_pos haw] at ih ⊢
        rw [List.find?_cons_of_neg _ (by simp [ha]),
          List.find?_cons_of_neg _ (by simp; exact haw ▸ ha)]
        exact ih
      · simp only [findSub, updateWatermark, List.map_cons, if_neg haw] at ih ⊢
        rw [List.find?_cons_of_neg _ (by simp [ha]),
          List.find?_cons_of_neg _ (by simp [ha])]
        exact ih

theorem findSub_append_left {store : Store} {w : String} {sub : Subscription}
    (l : Store) (h : findSub store w = some sub) :
    findSub (store ++ l) w = some sub := by
  induction store with
  | nil => simp [findSub] at h
  | cons a rest ih =>
    by_cases ha : a.webhook = w
    · simp only [findSub] at h ⊢
      rw [List.find?_cons_of_pos _ (by simp [ha])] at h
      rw [List.cons_append, List.find?_cons_of_pos _ (by simp [ha])]
      exact h
    · simp only [findSub] at h ⊢
      rw [List.find?_cons_of_neg _ (by simp [ha])] at h
      rw [List.cons_append, List.find?_cons_of_neg _ (by simp [ha])]
      exact ih h

theorem findSub_append_right {store : Store} {w : String}
    (l : Store) (h : findSub store w = none) :
    findSub (store ++ l) w = findSub l w := by
  induction store with
  | nil => rfl
  | cons a rest ih =>
    by_cases ha : a.webhook = w
    · simp only [findSub] at h
      rw [List.find?_cons_of_pos _ (by simp [ha])] at h
      cases h
    · simp only [findSub] at h ⊢
      rw [List.find?_cons_of_neg _ (by simp [ha])] at h
      rw [List.cons_append, List.find?_cons_of_neg _ (by simp [ha])]
      exact ih h

theorem findSub_self_of_nodup {store : Store}
    (hnd : (store.map (fun s => s.webhook)).Nodup) :
    ∀ b ∈ store, findSub store b.webhook = some b := by
  induction store with
  | nil => intro b hb; cases hb
  | cons a rest ih =>
    intro b hb
    rcases List.mem_cons.mp hb with rfl | hmem
    · simp only [findSub]
      rw [List.find?_cons_of_pos _ (by simp)]
    · have hne : ¬a.webhook = b.webhook := by
        intro hEq
        have : a.webhook ∈ rest.map (fun s => s.webhook) :=
          hEq ▸ List.mem_map_of_mem _ hmem
        exact (List.nodup_cons.mp hnd).1 this
      simp only [findSub]
      rw [List.find?_cons_of_neg _ (by simp; exact hne)]
      exact ih (List.nodup_cons.mp hnd).2 b hmem

/-! ### Claim C1 -/

/-- Subscription used in the claim C1 counterexample. -/
def c1cexSub : Subscription :=
  { webhook := "https://discord.test/c1", latestId := 100, queryParams := "q" }

/-- Feed used in the claim C1 counterexample: newest-first, newest id 99 < watermark 100. -/
def c1cexNotices : List Notice :=
  [{ id := 99, title := "old", url := "https://notice.test/99" }]

/-- Claim C1 counterexample: with stored watermark 100 and newest-first feed
`[99]`, the claim says the stored watermark afterwards equals the newest fetched
id 99; the code performs no write (99 is not greater than 100), so the stored
watermark stays 100 ≠ 99.  (Deliveries agree with the claim: none.) -/
theorem c1_counterexample :
    sortedDesc c1cexNotices ∧
    (refreshSyncBody c1cexSub c1cexNotices []).1 = [] ∧
    findSub (applyWrite [c1cexSub] c1cexSub.webhook
        (refreshSyncBody c1cexSub c1cexNotices []).2.1) c1cexSub.webhook
      = some c1cexSub ∧
    c1cexSub.latestId ≠ latestIdOf c1cexNotices := by
  refine ⟨?_, rfl, ?_, by decide⟩
  · simp [sortedDesc, c1cexNotices]
  · rfl

/-- Claim C1 (amended): for every subscription and newest-first feed, sync
dispatches exactly the notices with id above the stored watermark, in ascending
id order, one message per notice — and the stored watermark afterwards equals
`max` of the old watermark and the newest fetched id (it equals the newest
fetched id whenever that id exceeds the old watermark, and is unchanged
otherwise). -/
theorem sync_gap_delivery (store : Store) (sub : Subscription)
    (notices : List Notice) (hsorted : sortedDesc notices)
    (hsub : findSub store sub.webhook = some sub) :
    ((refreshSyncBody sub notices []).1 =
      (if sub.latestId < latestIdOf notices then
        [Event.storeUpdate sub.webhook (latestIdOf notices)] else []) ++
      (newNotices sub.latestId notices).map
        (fun n => Event.dispatch sub.webhook (messageContent n) avatarUrl)) ∧
    (∀ n : Notice,
      n ∈ newNotices sub.latestId notices ↔ n ∈ notices ∧ sub.latestId < n.id) ∧
    (newNotices sub.latestId notices).Pairwise (fun a b => a.id < b.id) ∧
    findSub (applyWrite store sub.webhook (refreshSyncBody sub notices []).2.1)
        sub.webhook
      = some { sub with latestId := max sub.latestId (latestIdOf notices) } := by
  refine ⟨?_, fun n => mem_newNotices, newNotices_sorted_asc hsorted, ?_⟩
  · by_cases hlt : sub.latestId < latestIdOf notices
    · simp [refreshSyncBody, hlt, dispatchLoop_noFail]
    · simp [refreshSyncBody, hlt, dispatchLoop_noFail]
  · by_cases hlt : sub.latestId < latestIdOf notices
    · have : (refreshSyncBody sub notices []).2.1 = some (latestIdOf notices) := by
        simp [refreshSyncBody, hlt]
      rw [this]
      have hmax : max sub.latestId (latestIdOf notices) = latestIdOf notices :=
        Nat.max_eq_right (Nat.le_of_lt hlt)
      rw [hmax]
      exact findSub_updateWatermark_self _ hsub
    · have : (refreshSyncBody sub notices []).2.1 = none := by
        simp [refreshSyncBody, hlt]
      rw [this]
      have hmax : max sub.latestId (latestIdOf notices) = sub.latestId :=
        Nat.max_eq_left (Nat.le_of_not_lt hlt)
      rw [hmax]
      exact hsub

/-- Subscription used in the claim C1 witness (watermark 100). -/
def c1sub : Subscription :=
  { webhook := "https://discord.test/c1w", latestId := 100, queryParams := "q" }

/-- The spec's example feed `[103,102,101,100]`, newest-first. -/
def c1notices : List Notice :=
  [{ id := 103, title := "t103", url := "u103" },
   { id := 102, title := "t102", url := "u102" },
   { id := 101, title := "t101", url := "u101" },
   { id := 100, title := "t100", url := "u100" }]

/-- Claim C1 witness: on the spec's example (watermark 100, feed
`[103,102,101,100]`), the amended theorem yields the watermark write to 103
followed by dispatches of 101, 102, 103 in that exact order, and the stored
watermark afterwards is 103. -/
theorem c1_witness :
    (refreshSyncBody c1sub c1notices []).1 =
      [Event.storeUpdate c1sub.webhook 103,
       Event.dispatch c1sub.webhook "t101\nu101" avatarUrl,
       Event.dispatch c1sub.webhook "t102\nu102" avatarUrl,
       Event.dispatch c1sub.webhook "t103\nu103" avatarUrl] ∧
    findSub (applyWrite [c1sub] c1sub.webhook
        (refreshSyncBody c1sub c1notices []).2.1) c1sub.webhook
      = some { c1sub with latestId := 103 } := by
  have h := sync_gap_delivery [c1sub] c1sub c1notices
    (by simp [sortedDesc, c1notices]) (by rfl)
  refine ⟨?_, ?_⟩
  · rw [h.1]; rfl
  · rw [h.2.2.2]; decide

/-! ### Claim C2 -/

/-- Claim C2: when the fetched newest id exceeds the stored watermark, the
watermark write is the first event of the sync trace — before any dispatch —
and it reaches the store even when a per-notice dispatch fails (`failIds`
arbitrary, containing the failing notice).  Afterwards the stored watermark is
the fetched newest id, and any later sync, whose delta is computed against a
watermark at least that large, never delivers any notice of this fetch — in
particular not the one whose dispatch failed. -/
theorem watermark_advanced_before_dispatch
    (store : Store) (sub : Subscription) (notices : List Notice)
    (failIds : List Nat) (n : Notice)
    (hsorted : sortedDesc notices)
    (hnew : sub.latestId < latestIdOf notices)
    (hn : n ∈ notices)
    (hfail : n.id ∈ failIds)
    (hsub : findSub store sub.webhook = some sub) :
    (∃ rest, (refreshSyncBody sub notices failIds).1 =
        Event.storeUpdate sub.webhook (latestIdOf notices) :: rest ∧
        ∀ e ∈ rest, isDispatch e = true) ∧
    (refreshSyncBody sub notices failIds).2.1 = some (latestIdOf notices) ∧
    findSub (applyWrite store sub.webhook
        (refreshSyncBody sub notices failIds).2.1) sub.webhook
      = some { sub with latestId := latestIdOf notices } ∧
    (∀ (sub' : Subscription) (laterNotices : List Notice),
      latestIdOf notices ≤ sub'.latestId →
      n ∉ newNotices sub'.latestId laterNotices) := by
  have hwm : (refreshSyncBody sub notices failIds).2.1 = some (latestIdOf notices) := by
    simp [refreshSyncBody, hnew]
  refine ⟨?_, hwm, ?_, ?_⟩
  · refine ⟨(dispatchLoop sub.webhook failIds (newNotices sub.latestId notices)).1, ?_, ?_⟩
    · simp [refreshSyncBody, hnew]
    · intro e he
      exact dispatchLoop_isDispatch he
  · rw [hwm]
    exact findSub_updateWatermark_self _ hsub
  · intro sub' laterNotices hwm' hmem
    have hin := (mem_newNotices.mp hmem).2
    have hle : n.id ≤ latestIdOf notices := mem_le_latestIdOf hsorted hn
    exact Nat.not_lt.mpr (Nat.le_trans hle hwm') hin

/-- Subscription used in the claim C2 witness (watermark 100). -/
def c2sub : Subscription :=
  { webhook := "https://discord.test/c2", latestId := 100, queryParams := "q" }

/-- Feed used in the claim C2 witness: newest-first, ids 102 and 101. -/
def c2notices : List Notice :=
  [{ id := 102, title := "t102", url := "u102" },
   { id := 101, title := "t101", url := "u101" }]

/-- The notice whose dispatch fails in the claim C2 witness. -/
def c2n : Notice := { id := 102, title := "t102", url := "u102" }

/-- Claim C2 witness: watermark 100, feed `[102,101]`, and the dispatch of
notice 102 fails.  The trace still starts with the watermark write to 102
(followed only by the successful dispatch of 101), the write is `some 102`,
and notice 102 is not in the delta of a later sync whose stored watermark
is 102. -/
theorem c2_witness :
    (refreshSyncBody c2sub c2notices [102]).2.1 = some 102 ∧
    findSub (applyWrite [c2sub] c2sub.webhook
        (refreshSyncBody c2sub c2notices [102]).2.1) c2sub.webhook
      = some { c2sub with latestId := 102 } ∧
    c2n ∉ newNotices 102 c2notices := by
  have h := watermark_advanced_before_dispatch [c2sub] c2sub c2notices [102] c2n
    (by simp [sortedDesc, c2notices]) (by decide) (by decide) (by decide) (by rfl)
  exact ⟨h.2.1, h.2.2.1,
    h.2.2.2 { webhook := c2sub.webhook, latestId := 102, queryParams := "q" }
      c2notices (by decide)⟩

/-! ### Claim C3 -/

/-- Claim C3: a registration request (POST /api/webhook with a `webhook`
parameter naming a new endpoint) returns 201 and appends a record whose
watermark is `latestIdOf notices` — the id of the first (newest) notice of the
list fetched for the requested filter, or 0 when that list is empty.  A sync of
the new record against the unchanged feed performs no write and dispatches
nothing. -/
theorem register_backlog_exclusion
    (feeds : String → Option (List Notice)) (failIds : List Nat) (store : Store)
    (w : String) (payload : Payload) (notices : List Notice)
    (habsent : findSub store w = none)
    (hfeed : feeds (toQueryString (buildQueryParams payload)) = some notices)
    (hsorted : sortedDesc notices) :
    (handleFetch feeds failIds store Method.POST "/api/webhook" (some w) payload).status
      = 201 ∧
    (handleFetch feeds failIds store Method.POST "/api/webhook" (some w) payload).store
      = store ++ [{ webhook := w, latestId := latestIdOf notices,
                    queryParams := toQueryString (buildQueryParams payload) }] ∧
    refreshSyncBody
        { webhook := w, latestId := latestIdOf notices,
          queryParams := toQueryString (buildQueryParams payload) }
        notices failIds
      = ([], none, true) := by
  have hroute :
      handleFetch feeds failIds store Method.POST "/api/webhook" (some w) payload
        = ⟨201, store ++ [{ webhook := w, latestId := latestIdOf notices,
                            queryParams := toQueryString (buildQueryParams payload) }],
            [Event.upstreamFetch (toQueryString (buildQueryParams payload)),
             Event.storeRead w,
             Event.storeInsert { webhook := w, latestId := latestIdOf notices,
                                 queryParams := toQueryString (buildQueryParams payload) }]⟩ := by
    simp [handleFetch, hfeed, habsent]
  refine ⟨by rw [hroute], by rw [hroute], ?_⟩
  have hempty : newNotices (latestIdOf notices) notices = [] :=
    newNotices_eq_nil hsorted (Nat.le_refl _)
  simp [refreshSyncBody, hempty, dispatchLoop]

/-- Endpoint registered in the claim C3 witness. -/
def c3hook : String := "https://discord.test/c3"

/-- Feed of the claim C3 witness: one notice with id 50 (the spec's example). -/
def c3notices : List Notice := [{ id := 50, title := "t50", url := "u50" }]

/-- Feed oracle of the claim C3 witness: every filter yields `c3notices`. -/
def c3feeds : String → Option (List Notice) := fun _ => some c3notices

/-- Request body of the claim C3 witness (no filter fields). -/
def c3payload : Payload := { category := none, department := none, search := none }

/-- The record the claim C3 witness registration creates. -/
def c3record : Subscription :=
  { webhook := c3hook, latestId := latestIdOf c3notices,
    queryParams := toQueryString (buildQueryParams c3payload) }

/-- Claim C3 witness: registering a new endpoint while the feed's newest id is
50 returns 201 and stores watermark 50; syncing the fresh record against the
unchanged feed delivers nothing and writes nothing. -/
theorem c3_witness :
    (handleFetch c3feeds [] [] Method.POST "/api/webhook" (some c3hook) c3payload).status
      = 201 ∧
    (handleFetch c3feeds [] [] Method.POST "/api/webhook" (some c3hook) c3payload).store
      = [] ++ [c3record] ∧
    c3record.latestId = 50 ∧
    refreshSyncBody c3record c3notices [] = ([], none, true) := by
  have h := register_backlog_exclusion c3feeds [] [] c3hook c3payload c3notices
    (by rfl) (by rfl) (by simp [sortedDesc, c3notices])
  exact ⟨h.1, h.2.1, by decide, h.2.2⟩

/-! ### Claim C5 -/

/-- Claim C5: whenever the fetched feed's newest id (0 for the empty feed) is
at most the stored watermark, the sync body writes nothing, dispatches nothing,
completes without error, and leaves the store untouched — for any per-notice
failure set, since no dispatch is attempted. -/
theorem sync_idempotent
    (store : Store) (sub : Subscription) (notices : List Notice)
    (failIds : List Nat)
    (hsorted : sortedDesc notices)
    (hle : latestIdOf notices ≤ sub.latestId) :
    refreshSyncBody sub notices failIds = ([], none, true) ∧
    applyWrite store sub.webhook (refreshSyncBody sub notices failIds).2.1 = store := by
  have h1 : newNotices sub.latestId notices = [] := newNotices_eq_nil hsorted hle
  have h2 : ¬sub.latestId < latestIdOf notices := Nat.not_lt.mpr hle
  refine ⟨?_, ?_⟩
  · simp [refreshSyncBody, h2, h1, dispatchLoop]
  · simp [refreshSyncBody, h2, applyWrite]

/-- Subscription of the claim C5 witness (watermark 100). -/
def c5sub : Subscription :=
  { webhook := "https://discord.test/c5", latestId := 100, queryParams := "q" }

/-- Feed of the claim C5 witness: newest id equals the stored watermark. -/
def c5notices : List Notice := [{ id := 100, title := "t100", url := "u100" }]

/-- Claim C5 witness: with watermark 100 and feed `[100]`, sync produces no
events, no write, no error, and the store is unchanged (failure set irrelevant). -/
theorem c5_witness :
    refreshSyncBody c5sub c5notices [100] = ([], none, true) ∧
    applyWrite [c5sub] c5sub.webhook (refreshSyncBody c5sub c5notices [100]).2.1
      = [c5sub] := by
  exact sync_idempotent [c5sub] c5sub c5notices [100]
    (by simp [sortedDesc, c5notices]) (by decide)

/-! ### Claim C7 -/

/-- Claim C7: when the upstream fetch fails or its body is malformed
(`feeds … = none`), the refresh sync aborts having only read the store and
attempted the upstream fetch: the store — in particular the subscription
record — is exactly what it was, no watermark write and no dispatch occur. -/
theorem fetch_failure_atomic
    (feeds : String → Option (List Notice)) (failIds : List Nat) (store : Store)
    (w : String) (payload : Payload) (info : Subscription)
    (hfound : findSub store w = some info)
    (hfail : feeds info.queryParams = none) :
    handleFetch feeds failIds store Method.POST "/api/webhook/refresh" (some w) payload
      = ⟨500, store, [Event.storeRead w, Event.upstreamFetch info.queryParams]⟩ := by
  simp [handleFetch, hfound, hfail]

/-- Subscription of the claim C7 witness. -/
def c7sub : Subscription :=
  { webhook := "https://discord.test/c7", latestId := 42, queryParams := "q7" }

/-- Request body of the claim C7 witness (no filter fields). -/
def c7payload : Payload := { category := none, department := none, search := none }

/-- Claim C7 witness: the upstream always fails; the refresh returns 500 with
the store intact and only the read and fetch attempts in the trace. -/
theorem c7_witness :
    handleFetch (fun _ => none) [] [c7sub] Method.POST "/api/webhook/refresh"
        (some c7sub.webhook) c7payload
      = ⟨500, [c7sub], [Event.storeRead c7sub.webhook,
                        Event.upstreamFetch c7sub.queryParams]⟩ := by
  exact fetch_failure_atomic (fun _ => none) [] [c7sub] c7sub.webhook c7payload
    c7sub (by rfl) (by rfl)

/-! ### Claim C8 -/

/-- Claim C8: for each of GET, POST and DELETE on `/api/webhook`, a request
without a `webhook` query parameter returns 400 with an empty event trace — no
store read, no store write, no upstream fetch — and the store unchanged. -/
theorem missing_webhook_param_400
    (feeds : String → Option (List Notice)) (failIds : List Nat)
    (store : Store) (payload : Payload) :
    handleFetch feeds failIds store Method.GET "/api/webhook" none payload
      = ⟨400, store, []⟩ ∧
    handleFetch feeds failIds store Method.POST "/api/webhook" none payload
      = ⟨400, store, []⟩ ∧
    handleFetch feeds failIds store Method.DELETE "/api/webhook" none payload
      = ⟨400, store, []⟩ :=
  ⟨rfl, rfl, rfl⟩

/-! ### Claim C4 -/

/-- First subscription of the claim C4 counterexample; its upstream fetch fails. -/
def c4bot1 : Subscription :=
  { webhook := "https://discord.test/c4a", latestId := 0, queryParams := "qa" }

/-- Second subscription of the claim C4 counterexample; its feed holds a fresh
notice with id 5. -/
def c4bot2 : Subscription :=
  { webhook := "https://discord.test/c4b", latestId := 0, queryParams := "qb" }

/-- Store of the claim C4 counterexample. -/
def c4store : Store := [c4bot1, c4bot2]

/-- Feed of the claim C4 counterexample: the feed exists for `qb` only; the
fetch for `qa` fails. -/
def c4feeds : String → Option (List Notice) :=
  fun q => if q = "qb" then some [{ id := 5, title := "t5", url := "u5" }] else none

/-- Claim C4 counterexample: during the scheduled sweep over `[c4bot1, c4bot2]`,
the upstream fetch for the first subscription fails; the source has no
try/catch, so the whole sweep aborts.  The trace holds only the failed fetch —
no fetch, dispatch or write for `c4bot2` — and the store is untouched, although
syncing `c4bot2` on its own would write watermark 5 and dispatch notice 5.
So a failure while syncing one subscription does prevent another subscription
from being synced, contrary to the claim. -/
theorem c4_counterexample :
    (sweep c4feeds [] c4store).1 = [Event.upstreamFetch "qa"] ∧
    (sweep c4feeds [] c4store).2.1 = c4store ∧
    (scheduledSyncBody c4bot2 [{ id := 5, title := "t5", url := "u5" }] []).1 =
      [Event.storeUpdate c4bot2.webhook 5,
       Event.dispatch c4bot2.webhook "t5\nu5" avatarUrl] :=
  ⟨rfl, rfl, rfl⟩

/-- Claim C4 (amended): a failure while syncing one subscription (upstream
fetch error or malformed feed, modelled by `feeds … = none`, or a per-notice
dispatch error, modelled by an unsuccessful sync body) aborts the scheduled
sweep at that subscription: the remaining subscriptions contribute nothing —
the result does not depend on them at all.  Subscriptions processed earlier
are unaffected (the sweep output lists their events first, unchanged). -/
theorem sweep_aborts_on_failure
    (feeds : String → Option (List Notice)) (failIds : List Nat) (store : Store)
    (bot : Subscription) (rest : List Subscription) :
    (feeds bot.queryParams = none →
      sweepLoop feeds failIds store (bot :: rest) =
        ([Event.upstreamFetch bot.queryParams], store, false)) ∧
    (∀ notices, feeds bot.queryParams = some notices →
      (scheduledSyncBody bot notices failIds).2.2 = false →
      sweepLoop feeds failIds store (bot :: rest) =
        (Event.upstreamFetch bot.queryParams :: (scheduledSyncBody bot notices failIds).1,
         applyWrite store bot.webhook (scheduledSyncBody bot notices failIds).2.1,
         false)) := by
  constructor
  · intro h
    simp [sweepLoop, h]
  · intro notices h hok
    simp [sweepLoop, h, hok]

/-- Claim C4 witness: on the counterexample input, the amended theorem
computes the aborted sweep for the failing head subscription, independently of
the rest of the list. -/
theorem c4_witness :
    sweepLoop c4feeds [] c4store [c4bot1, c4bot2] =
      ([Event.upstreamFetch c4bot1.queryParams], c4store, false) :=
  (sweep_aborts_on_failure c4feeds [] c4store c4bot1 [c4bot2]).1 (by rfl)

/-! ### Claim C6 -/

/-- Claim C6: a creation request for an endpoint already present returns 409
and leaves the store (hence the existing record) untouched; one for an absent
endpoint appends the record and returns 201; and two successive creation
requests for the same endpoint — in whichever order the two payloads arrive —
yield exactly one 201 (the first) and one 409 (the second). -/
theorem create_conflict_unique
    (feeds : String → Option (List Notice)) (failIds : List Nat) (store : Store)
    (w : String) (p1 p2 : Payload) (n1 n2 : List Notice)
    (hf1 : feeds (toQueryString (buildQueryParams p1)) = some n1)
    (hf2 : feeds (toQueryString (buildQueryParams p2)) = some n2) :
    ((findSub store w).isSome →
      handleFetch feeds failIds store Method.POST "/api/webhook" (some w) p1 =
        ⟨409, store, [Event.upstreamFetch (toQueryString (buildQueryParams p1)),
                      Event.storeRead w]⟩) ∧
    (findSub store w = none →
      (handleFetch feeds failIds store Method.POST "/api/webhook" (some w) p1).status
        = 201 ∧
      (handleFetch feeds failIds store Method.POST "/api/webhook" (some w) p1).store
        = store ++ [{ webhook := w, latestId := latestIdOf n1,
                      queryParams := toQueryString (buildQueryParams p1) }]) ∧
    (findSub store w = none →
      (handleFetch feeds failIds store Method.POST "/api/webhook" (some w) p1).status
        = 201 ∧
      (handleFetch feeds failIds
          (handleFetch feeds failIds store Method.POST "/api/webhook" (some w) p1).store
          Method.POST "/api/webhook" (some w) p2).status = 409) := by
  refine ⟨?_, ?_, ?_⟩
  · intro hsome
    obtain ⟨info, hinfo⟩ := Option.isSome_iff_exists.mp hsome
    simp [handleFetch, hf1, hinfo]
  · intro habsent
    constructor
    · simp [handleFetch, hf1, habsent]
    · simp [handleFetch, hf1, habsent]
  · intro habsent
    have hstore1 :
        (handleFetch feeds failIds store Method.POST "/api/webhook" (some w) p1).store
          = store ++ [{ webhook := w, latestId := latestIdOf n1,
                        queryParams := toQueryString (buildQueryParams p1) }] := by
      simp [handleFetch, hf1, habsent]
    have hfound :
        findSub (store ++ [{ webhook := w, latestId := latestIdOf n1,
                             queryParams := toQueryString (buildQueryParams p1) }]) w
          = some { webhook := w, latestId := latestIdOf n1,
                   queryParams := toQueryString (buildQueryParams p1) } := by
      rw [findSub_append_right _ habsent]
      simp only [findSub]
      rw [List.find?_cons_of_pos _ (by simp)]
    constructor
    · simp [handleFetch, hf1, habsent]
    · rw [hstore1]
      simp [handleFetch, hf2, hfound]

/-- Endpoint of the claim C6 witness. -/
def c6hook : String := "https://discord.test/c6"

/-- Feed oracle of the claim C6 witness: every filter yields an empty feed. -/
def c6feeds : String → Option (List Notice) := fun _ => some []

/-- First payload of the claim C6 witness. -/
def c6p1 : Payload := { category := some "academic", department := none, search := none }

/-- Second payload of the claim C6 witness. -/
def c6p2 : Payload := { category := none, department := some "software", search := none }

/-- Claim C6 witness: from an empty store, two creation requests for the same
endpoint (different payloads): the first returns 201, the second 409. -/
theorem c6_witness :
    (handleFetch c6feeds [] [] Method.POST "/api/webhook" (some c6hook) c6p1).status
      = 201 ∧
    (handleFetch c6feeds []
        (handleFetch c6feeds [] [] Method.POST "/api/webhook" (some c6hook) c6p1).store
        Method.POST "/api/webhook" (some c6hook) c6p2).status = 409 :=
  (create_conflict_unique c6feeds [] [] c6hook c6p1 c6p2 [] []
    (by rfl) (by rfl)).2.2 (by rfl)

/-! ### Claim C9 -/

theorem findSub_webhook_eq {store : Store} {w : String} {s : Subscription}
    (h : findSub store w = some s) : s.webhook = w := by
  have hp := List.find?_some h
  simpa using hp

/-- The two transcriptions of the duplicated sync body coincide. -/
theorem syncBody_eq (info : Subscription) (notices : List Notice)
    (failIds : List Nat) :
    refreshSyncBody info notices failIds = scheduledSyncBody info notices failIds :=
  rfl

theorem refreshSyncBody_wm_lt {info : Subscription} {notices : List Notice}
    {failIds : List Nat} {v : Nat}
    (h : (refreshSyncBody info notices failIds).2.1 = some v) :
    info.latestId < v := by
  by_cases hlt : info.latestId < latestIdOf notices
  · simp [refreshSyncBody, hlt] at h
    exact h ▸ hlt
  · simp [refreshSyncBody, hlt] at h

theorem scheduledSyncBody_wm_lt {bot : Subscription} {notices : List Notice}
    {failIds : List Nat} {v : Nat}
    (h : (scheduledSyncBody bot notices failIds).2.1 = some v) :
    bot.latestId < v := by
  rw [← syncBody_eq] at h
  exact refreshSyncBody_wm_lt h

theorem findSub_step_preserve {store : Store} {bw : String} {wm : Option Nat}
    {w : String} (hw : w ≠ bw) :
    findSub (applyWrite store bw wm) w = findSub store w := by
  cases wm with
  | none => rfl
  | some v => exact findSub_updateWatermark_ne hw v

theorem findSub_step_mono {store : Store} {bot : Subscription} {wm : Option Nat}
    (hbot : findSub store bot.webhook = some bot)
    (hwm : ∀ v, wm = some v → bot.latestId ≤ v)
    {w : String} {sub : Subscription}
    (h : findSub store w = some sub) :
    ∃ sub', findSub (applyWrite store bot.webhook wm) w = some sub' ∧
      sub.latestId ≤ sub'.latestId := by
  cases wm with
  | none => exact ⟨sub, h, Nat.le_refl _⟩
  | some v =>
    by_cases hw : w = bot.webhook
    · subst hw
      have hsb : sub = bot := by
        rw [h] at hbot
        exact Option.some.inj hbot
      subst hsb
      exact ⟨{ sub with latestId := v }, findSub_updateWatermark_self v h,
        hwm v rfl⟩
    · exact ⟨sub, (findSub_updateWatermark_ne hw v).trans h, Nat.le_refl _⟩

theorem sweepLoop_watermark_mono
    (feeds : String → Option (List Notice)) (failIds : List Nat) :
    ∀ (bots : List Subscription) (store : Store),
      (∀ b ∈ bots, findSub store b.webhook = some b) →
      (bots.map (fun s => s.webhook)).Nodup →
      ∀ {w : String} {sub sub' : Subscription},
        findSub store w = some sub →
        findSub (sweepLoop feeds failIds store bots).2.1 w = some sub' →
        sub.latestId ≤ sub'.latestId := by
  intro bots
  induction bots with
  | nil =>
    intro store _ _ w sub sub' h1 h2
    simp only [sweepLoop] at h2
    rw [h1] at h2
    cases h2
    exact Nat.le_refl _
  | cons bot rest ih =>
    intro store hbots hnd w sub sub' h1 h2
    have hbot : findSub store bot.webhook = some bot :=
      hbots bot (List.mem_cons_self _ _)
    rcases hfeed : feeds bot.queryParams with _ | notices
    · simp only [sweepLoop, hfeed] at h2
      rw [h1] at h2
      cases h2
      exact Nat.le_refl _
    · simp only [sweepLoop, hfeed] at h2
      have hwm : ∀ v, (scheduledSyncBody bot notices failIds).2.1 = some v →
          bot.latestId ≤ v :=
        fun v hv => Nat.le_of_lt (scheduledSyncBody_wm_lt hv)
      obtain ⟨sub1, hsub1, hle1⟩ := findSub_step_mono hbot hwm h1
      by_cases hok : (scheduledSyncBody bot notices failIds).2.2 = true
      · rw [if_pos hok] at h2
        have hrest : ∀ b ∈ rest,
            findSub (applyWrite store bot.webhook
              (scheduledSyncBody bot notices failIds).2.1) b.webhook = some b := by
          intro b hb
          have hne : b.webhook ≠ bot.webhook := by
            intro hEq
            have hmem : bot.webhook ∈ rest.map (fun s => s.webhook) := by
              rw [← hEq]
              exact List.mem_map_of_mem (fun s => s.webhook) hb
            exact (List.nodup_cons.mp hnd).1 hmem
          rw [findSub_step_preserve hne]
          exact hbots b (List.mem_cons_of_mem _ hb)
        exact Nat.le_trans hle1
          (ih _ hrest (List.nodup_cons.mp hnd).2 hsub1 h2)
      · rw [if_neg hok] at h2
        rw [hsub1] at h2
        cases h2
        exact hle1

/-- Claim C9: the stored watermark never decreases.  For any record present
before and after the operation, its watermark after is at least its watermark
before, for each of the three mutating operations: a creation request
(POST /api/webhook), an on-demand refresh (POST /api/webhook/refresh), and the
scheduled sweep (the latter under the primary-key invariant that stored
webhooks are distinct). -/
theorem watermark_monotone
    (feeds : String → Option (List Notice)) (failIds : List Nat) (store : Store)
    (ep w : String) (payload : Payload) :
    (∀ sub sub', findSub store w = some sub →
      findSub (handleFetch feeds failIds store Method.POST "/api/webhook"
          (some ep) payload).store w = some sub' →
      sub.latestId ≤ sub'.latestId) ∧
    (∀ sub sub', findSub store w = some sub →
      findSub (handleFetch feeds failIds store Method.POST "/api/webhook/refresh"
          (some ep) payload).store w = some sub' →
      sub.latestId ≤ sub'.latestId) ∧
    ((store.map (fun s => s.webhook)).Nodup →
      ∀ sub sub', findSub store w = some sub →
      findSub (sweep feeds failIds store).2.1 w = some sub' →
      sub.latestId ≤ sub'.latestId) := by
  refine ⟨?_, ?_, ?_⟩
  · intro sub sub' h1 h2
    rcases hfeed : feeds (toQueryString (buildQueryParams payload)) with _ | notices
    · simp [handleFetch, hfeed] at h2
      rw [h1] at h2
      cases h2
      exact Nat.le_refl _
    · rcases hfind : findSub store ep with _ | info
      · simp [handleFetch, hfeed, hfind] at h2
        rw [findSub_append_left _ h1] at h2
        cases h2
        exact Nat.le_refl _
      · simp [handleFetch, hfeed, hfind] at h2
        rw [h1] at h2
        cases h2
        exact Nat.le_refl _
  · intro sub sub' h1 h2
    rcases hfind : findSub store ep with _ | info
    · simp [handleFetch, hfind] at h2
      rw [h1] at h2
      cases h2
      exact Nat.le_refl _
    · rcases hfeed : feeds info.queryParams with _ | notices
      · simp [handleFetch, hfind, hfeed] at h2
        rw [h1] at h2
        cases h2
        exact Nat.le_refl _
      · simp [handleFetch, hfind, hfeed] at h2
        have hweb : info.webhook = ep := findSub_webhook_eq hfind
        have hbot : findSub store info.webhook = some info := by
          rw [hweb]
          exact hfind
        have hwm : ∀ v, (refreshSyncBody info notices failIds).2.1 = some v →
            info.latestId ≤ v :=
          fun v hv => Nat.le_of_lt (refreshSyncBody_wm_lt hv)
        obtain ⟨sub1, hsub1, hle1⟩ := findSub_step_mono hbot hwm h1
        rw [hweb] at hsub1
        rw [hsub1] at h2
        cases h2
        exact hle1
  · intro hnd sub sub' h1 h2
    exact sweepLoop_watermark_mono feeds failIds store store
      (findSub_self_of_nodup hnd) hnd h1 h2

/-- Subscription of the claim C9 witness (watermark 10). -/
def c9sub : Subscription :=
  { webhook := "https://discord.test/c9", latestId := 10, queryParams := "q9" }

/-- The record after the claim C9 witness refresh (watermark 20). -/
def c9sub' : Subscription :=
  { webhook := "https://discord.test/c9", latestId := 20, queryParams := "q9" }

/-- Feed oracle of the claim C9 witness: filter `q9` yields one notice, id 20. -/
def c9feeds : String → Option (List Notice) :=
  fun q => if q = "q9" then some [{ id := 20, title := "t20", url := "u20" }] else none

/-- Request body of the claim C9 witness. -/
def c9payload : Payload := { category := none, department := none, search := none }

/-- Claim C9 witness: an on-demand refresh moves the stored watermark from 10
to 20; monotonicity instantiated at this run gives 10 ≤ 20. -/
theorem c9_witness : c9sub.latestId ≤ c9sub'.latestId :=
  (watermark_monotone c9feeds [] [c9sub] c9sub.webhook c9sub.webhook
    c9payload).2.1 c9sub c9sub' (by rfl) (by decide)

/-! ### Claim C10 -/

/-- Claim C10: given the same stored record and the same fetched notice list
(and the same per-notice failures), the on-demand refresh sync body and the
scheduled sweep's per-subscription body are equal — same event trace, same
watermark write, same success flag.  The watermark write is the newest fetched
id exactly when it exceeds the stored watermark, and every dispatched message
goes to the record's endpoint carrying content `title\nurl` and the fixed
avatar URL. -/
theorem refresh_scheduled_equivalent
    (info : Subscription) (notices : List Notice) (failIds : List Nat) :
    refreshSyncBody info notices failIds = scheduledSyncBody info notices failIds ∧
    (refreshSyncBody info notices failIds).2.1 =
      (if info.latestId < latestIdOf notices then some (latestIdOf notices) else none) ∧
    (∀ e ∈ (refreshSyncBody info notices failIds).1, isDispatch e = true →
      ∃ n, n ∈ newNotices info.latestId notices ∧
        e = Event.dispatch info.webhook (n.title ++ "\n" ++ n.url) avatarUrl) := by
  refine ⟨rfl, rfl, ?_⟩
  intro e he hd
  by_cases hlt : info.latestId < latestIdOf notices
  · simp only [refreshSyncBody, if_pos hlt, List.mem_append,
      List.mem_singleton] at he
    rcases he with rfl | he
    · simp [isDispatch] at hd
    · obtain ⟨n, hn, rfl⟩ := dispatchLoop_mem he
      exact ⟨n, hn, rfl⟩
  · simp only [refreshSyncBody, if_neg hlt, List.nil_append] at he
    obtain ⟨n, hn, rfl⟩ := dispatchLoop_mem he
    exact ⟨n, hn, rfl⟩

/-- Record of the claim C10 witness. -/
def c10sub : Subscription :=
  { webhook := "https://discord.test/c10", latestId := 3, queryParams := "qx" }

/-- Feed of the claim C10 witness. -/
def c10notices : List Notice := [{ id := 4, title := "t4", url := "u4" }]

/-- Claim C10 witness: on a concrete record and feed, the two sync bodies
coincide and write watermark 4. -/
theorem c10_witness :
    refreshSyncBody c10sub c10notices [] = scheduledSyncBody c10sub c10notices [] ∧
    (refreshSyncBody c10sub c10notices []).2.1 = some 4 := by
  have h := refresh_scheduled_equivalent c10sub c10notices []
  exact ⟨h.1, by rw [h.2.1]; rfl⟩

/-- Request body of the claim C8 witness (no filter fields). -/
def c8payload : Payload := { category := none, department := none, search := none }

/-- Store of the claim C8 witness. -/
def c8store : Store :=
  [{ webhook := "https://discord.test/c8", latestId := 1, queryParams := "q8" }]

/-- Claim C8 witness: on a concrete store, each of GET, POST, DELETE without
the `webhook` parameter yields 400, an unchanged store, and an empty trace. -/
theorem c8_witness :
    handleFetch (fun _ => some []) [] c8store Method.GET "/api/webhook" none
        c8payload = ⟨400, c8store, []⟩ ∧
    handleFetch (fun _ => some []) [] c8store Method.POST "/api/webhook" none
        c8payload = ⟨400, c8store, []⟩ ∧
    handleFetch (fun _ => some []) [] c8store Method.DELETE "/api/webhook" none
        c8payload = ⟨400, c8store, []⟩ :=
  missing_webhook_param_400 (fun _ => some []) [] c8store c8payload
